import Mathlib

/-!
# Verification of the cirrus-cli execution-backend orchestration layer

A shallow embedding, in Lean 4, of the instance dispatcher
(`NewFromProto`), the container orchestrator (`RunContainerizedAgent`,
`runAdditionalContainer`, `pullHelper`, `clampCPU`, `clampMemory`) from
`internal/executor/instance/instance.go`, and the Parallels VM
orchestrator's command construction (`Parallels.Run`, `TimeSyncCommand`).

Modelling conventions:
* Go `float32` quantities (CPU quotas) are modelled as `ℚ`: every
  operation the source performs on them (`math.Min`, comparison,
  one multiplication later truncated to `int64`) is order-theoretic or
  exact, so the rational model is faithful for all non-NaN inputs.
* Go machine integers are modelled as `Nat`/`Int`, with an explicit
  `% 2^32` where the source performs a narrowing `uint32(...)`
  conversion.
* Stateful, concurrent code is modelled as explicit state passing over
  an oracle that fixes the outcome of every backend call and the first
  event delivered by the `select` statement; each run also produces the
  ordered trace of backend-visible actions the function performs, which
  is what the teardown-ordering statements are about.
* Fallible Go functions (`(T, error)`) are modelled as `Except`/`Option`
  returns; raw backend errors are opaque strings wrapped into the
  `GoError` type mirroring the sentinel errors of the source.
-/

namespace CirrusCLI

/-- Sentinel error classes of the source. `backend e` stands for a raw
(unwrapped) error returned by a container-backend call; the other
constructors mirror `fmt.Errorf("%w: ...", Sentinel, err)` wrappings of
`ErrFailedToCreateInstance`, `ErrUnsupportedInstance`,
`ErrAdditionalContainerFailed` and the Parallels `ErrFailed`. -/
inductive GoError where
  | failedToCreateInstance (detail : String)
  | unsupportedInstance (typeName : String)
  | additionalContainerFailed (detail : String)
  | backend (detail : String)
  | parallelsFailed (detail : String)
  deriving DecidableEq, Repr

/-- Model of `errors.Is(err, ErrFailedToCreateInstance)` on the model. -/
def GoError.isFailedToCreateInstance : GoError → Bool
  | .failedToCreateInstance _ => true
  | _ => false

/-- Model of `errors.Is(err, ErrUnsupportedInstance)` on the model. -/
def GoError.isUnsupportedInstance : GoError → Bool
  | .unsupportedInstance _ => true
  | _ => false

/-- Model of `errors.Is(err, ErrAdditionalContainerFailed)` on the model. -/
def GoError.isAdditionalContainerFailed : GoError → Bool
  | .additionalContainerFailed _ => true
  | _ => false

/-- Model of `const mebi = 1024 * 1024` from the source. -/
def mebi : Nat := 1024 * 1024

/-- Model of `const nano = 1_000_000_000` from the source. -/
def nano : Nat := 1000000000

/-- Go's `math.Min` restricted to non-NaN values: it selects the smaller
argument and performs no arithmetic, so on the rational model it is
exactly this selection. -/
def mathMin (x y : ℚ) : ℚ :=
  if x ≤ y then x else y

/-- Model of `clampCPU(requested, available)` from the source:
`float32(math.Min(float64(requested), float64(available)))` — the
`float32 → float64 → float32` round trip is exact, so the model is the
bare `math.Min`. -/
def clampCPU (requested available : ℚ) : ℚ :=
  mathMin requested available

/-- Model of `clampMemory(requested, available)` from the source:
`if requested > available { return available }; return requested`. -/
def clampMemory (requested available : Nat) : Nat :=
  if requested > available then available else requested

/-- Model of `api.AdditionalContainer.PortMapping`: `ContainerPort` and `HostPort`
are `uint32` protobuf fields, used here only for comparison and decimal
formatting, hence `Nat`. -/
structure PortMapping where
  containerPort : Nat
  hostPort : Nat
  deriving DecidableEq, Repr

/-- Model of `api.AdditionalContainer` (the fields the orchestrator reads):
name, image, command override, environment, CPU quota (`float32`),
memory quota in MiB (`uint32`), ordered port mappings. -/
structure AdditionalContainer where
  name : String
  image : String
  command : List String
  environment : List (String × String)
  cpu : ℚ
  memory : Nat
  ports : List PortMapping
  deriving DecidableEq, Repr

/-- The two `platform.Platform` methods `RunContainerizedAgent` calls,
modelled as data (the concrete platform object is an external
collaborator). -/
structure Platform where
  containerAgentPath : String
  containerAgentVolumeDir : String
  deriving DecidableEq, Repr

/-- Model of `instance.Params` from the source. -/
structure Params where
  image : String
  cpu : ℚ
  memory : Nat
  additionalContainers : List AdditionalContainer
  commandFrom : String
  commandTo : String
  platform : Platform
  agentVolumeName : String
  workingVolumeName : String
  workingDirectory : String
  deriving DecidableEq, Repr

/-- The fields of `runconfig.RunConfig` read by the two orchestrators.
`noCleanup` is `config.ContainerOptions.NoCleanup`. -/
structure RunConfig where
  containerEndpoint : String
  directEndpoint : String
  serverSecret : String
  clientSecret : String
  taskID : Int
  projectDir : String
  dirtyMode : Bool
  noCleanup : Bool
  deriving DecidableEq, Repr

/-- Model of `containerbackend.SystemInfo` (the fields read): `TotalCPUs` and
`TotalMemoryBytes` are non-negative `int64`s, hence `Nat`. -/
structure SystemInfo where
  totalCPUs : Nat
  totalMemoryBytes : Nat
  deriving DecidableEq, Repr

/-- Model of `containerbackend.ContainerMount`'s `Type` field. -/
inductive MountType where
  | bind
  | volume
  deriving DecidableEq, Repr

/-- Model of `containerbackend.ContainerMount`. -/
structure ContainerMount where
  type : MountType
  source : String
  target : String
  deriving DecidableEq, Repr

/-- Go's conversion of a (here: rational-modelled) float to `int64`:
truncation toward zero. -/
def truncToInt (q : ℚ) : Int :=
  if 0 ≤ q then ⌊q⌋ else ⌈q⌉

/-- Model of `containerbackend.ContainerCreateInput` (the fields the orchestrator
writes): image, entrypoint / command vectors, environment, mounts,
resource limits (`NanoCPUs`, `Memory` as `int64`), network attachment
string (`""` when unset) and the SELinux toggle. -/
structure ContainerCreateInput where
  image : String
  entrypoint : List String
  command : List String
  env : List (String × String)
  mounts : List ContainerMount
  nanoCPUs : Int
  memory : Int
  network : String
  disableSELinux : Bool
  deriving DecidableEq, Repr

/-- Default-initialised `ContainerCreateInput`, matching Go zero values
for the fields a struct literal leaves unset. -/
def ContainerCreateInput.empty : ContainerCreateInput :=
  { image := "", entrypoint := [], command := [], env := [], mounts := [],
    nanoCPUs := 0, memory := 0, network := "", disableSELinux := false }

/-- Model of `strconv.FormatInt(i, 10)`: Lean's `Int` decimal printer agrees with
Go's. -/
def formatInt (i : Int) : String :=
  toString i

/-- Model of `strconv.FormatUint(n, 10)`. -/
def formatUint (n : Nat) : String :=
  toString n

/-- Model of Go's `filepath.Dir` restricted to already-clean paths (the
only inputs the source feeds it): everything up to the last `/`, with
Go's conventions `Dir "x" = "."` and `Dir "/x" = "/"`. -/
def filepathDir (p : String) : String :=
  let upto := p.dropRightWhile (fun c => c ≠ '/')
  if upto = "" then "."
  else if upto = "/" then "/"
  else upto.dropRight 1

/-- Modelled from the spec: `heuristic.CloudBuildNetworkName`, the
CI-provider (Cloud Build) network name constant; the `heuristic` package
is not among the embedded sources and no claim depends on the value. -/
def cloudBuildNetworkName : String := "cloudbuild"

/-- The `uint32` narrowing `availableMemory := uint32(info.TotalMemoryBytes / mebi)`
(int64 division, then a wrapping conversion). -/
def availableMemoryOf (info : SystemInfo) : Nat :=
  (info.totalMemoryBytes / mebi) % 2 ^ 32

/-- Model of `availableCPU := float32(info.TotalCPUs)` on the rational model. -/
def availableCPUOf (info : SystemInfo) : ℚ :=
  (info.totalCPUs : ℚ)

/-- The clamping of one additional container's quotas performed inside
`RunContainerizedAgent`'s loop (mutating `additionalContainer.Cpu` and
`additionalContainer.Memory` in place). -/
def clampAdditionalContainer (availableCPU : ℚ) (availableMemory : Nat)
    (ac : AdditionalContainer) : AdditionalContainer :=
  { ac with
      cpu := clampCPU ac.cpu availableCPU
      memory := clampMemory ac.memory availableMemory }

/-- The whole clamping step of `RunContainerizedAgent` (lines 145–153):
the caller-visible final state of `params` after `params.CPU`,
`params.Memory` and every additional container's `Cpu`/`Memory` have
been overwritten with their clamped values. -/
def clampParams (info : SystemInfo) (params : Params) : Params :=
  { params with
      cpu := clampCPU params.cpu (availableCPUOf info)
      memory := clampMemory params.memory (availableMemoryOf info)
      additionalContainers := params.additionalContainers.map
        (clampAdditionalContainer (availableCPUOf info) (availableMemoryOf info)) }

/-- The per-mapping strings `strconv.FormatUint(uint64(portMapping.ContainerPort), 10)`
collected over all additional containers in declaration order. -/
def additionalContainerPortStrings (acs : List AdditionalContainer) : List String :=
  acs.flatMap fun ac => ac.ports.map fun p => formatUint p.containerPort

/-- The entrypoint vector of the main container (lines 162–176 of the
source). -/
def containerEntrypoint (config : RunConfig) (params : Params) : List String :=
  [params.platform.containerAgentPath,
   "-api-endpoint", config.containerEndpoint,
   "-server-token", config.serverSecret,
   "-client-token", config.clientSecret,
   "-task-id", formatInt config.taskID,
   "-command-from", params.commandFrom,
   "-command-to", params.commandTo]

/-- The `ContainerCreateInput` built by `RunContainerizedAgent`
(lines 160–247), parameterised by `goos` (`runtime.GOOS`) and
`cloudBuildIP` (the result of `heuristic.GetCloudBuildIP`). The source
mutates the struct literal in stages; the model composes the same
stages. `params` here is the already-clamped `params`.

`int64(params.Memory * mebi)` multiplies in `uint32` before widening,
hence the `% 2 ^ 32`. -/
def mainContainerCreateInput (goos : String) (cloudBuildIP : String)
    (config : RunConfig) (params : Params) : ContainerCreateInput :=
  let base : ContainerCreateInput :=
    { ContainerCreateInput.empty with
        image := params.image
        entrypoint := containerEntrypoint config params
        env := []
        mounts := [⟨.volume, params.agentVolumeName,
                    params.platform.containerAgentVolumeDir⟩]
        nanoCPUs := truncToInt (params.cpu * (nano : ℚ))
        memory := ((params.memory * mebi) % 2 ^ 32 : Nat) }
  let withLinux :=
    if goos = "linux" then
      { base with
          network := if cloudBuildIP ≠ "" then cloudBuildNetworkName else base.network
          disableSELinux := true }
    else base
  let withSocket :=
    if config.containerEndpoint.startsWith "unix:" then
      let socketPath := config.containerEndpoint.drop 5
      let socketDir := filepathDir socketPath
      { withLinux with mounts := withLinux.mounts ++ [⟨.bind, socketDir, socketDir⟩] }
    else withLinux
  let withProject :=
    if config.dirtyMode then
      { withSocket with mounts := withSocket.mounts ++
          [⟨.bind, config.projectDir, params.workingDirectory⟩] }
    else
      { withSocket with mounts := withSocket.mounts ++
          [⟨.volume, params.workingVolumeName, params.workingDirectory⟩] }
  if 0 < params.additionalContainers.length then
    { withProject with env := withProject.env ++
        [("CIRRUS_PORTS_WAIT_FOR",
          String.intercalate "," (additionalContainerPortStrings params.additionalContainers))] }
  else withProject

/-- The backend-visible actions (and the logger warnings and
context/wait-group operations relevant to teardown ordering) that the
orchestration functions perform, in program order. -/
inductive Action where
  | querySystemInfo
  | pullImage (reference : String)
  | createContainer (input : ContainerCreateInput)
  | spawnAdditionalContainer (name : String)
  | startContainer (id : String)
  | openLogs (id : String)
  | waitContainer (id : String)
  | warnHostPort (containerName : String)
  | cancelAdditionalContainers
  | waitAdditionalContainersDone
  | deleteContainer (id : String)
  | logNoCleanup (id : String)
  | cancelLogReader
  | waitLogReaderDone
  deriving DecidableEq, Repr

/-- Model of `pullHelper(ctx, reference, backend, copts, logger)`: consults the
pull policy and, when pulling is indicated, performs the pull; a backend
pull failure is wrapped as `ErrAdditionalContainerFailed` (line 448).
`shouldPull` models `copts.ShouldPullImage(...)` and `pullResult` the
backend's `ImagePull`. -/
def pullHelper (reference : String) (shouldPull : Bool)
    (pullResult : Except String Unit) : Option GoError × List Action :=
  if shouldPull then
    match pullResult with
    | .ok _ => (none, [.pullImage reference])
    | .error msg => (some (.additionalContainerFailed msg), [.pullImage reference])
  else (none, [])

/-- The outcome of the `select` in `runAdditionalContainer`
(lines 404–409): whichever of the two `ContainerWait` channels delivers
first. -/
inductive SidecarWaitEvent where
  | containerExit (statusCode : Int) (errMsg : Option String)
  | waitError (msg : String)
  deriving DecidableEq, Repr

/-- Fixes the outcome of every backend call one sidecar run performs,
and the first event its wait `select` sees. -/
structure SidecarOracle where
  shouldPullImage : Bool
  imagePull : Except String Unit
  containerCreate : Except String String
  containerStart : Except String Unit
  waitEvent : SidecarWaitEvent
  deriving Repr

/-- The warning loop of `runAdditionalContainer` (lines 389–395): at
most one `Warnf` per additional container — the `break` fires on the
first port mapping with a non-zero `HostPort`. -/
def portWarnActions (containerName : String) : List PortMapping → List Action
  | [] => []
  | p :: rest =>
      if p.hostPort ≠ 0 then [.warnHostPort containerName]
      else portWarnActions containerName rest

/-- The deferred cleanup of one sidecar (lines 370–383): delete the
container, or only log it under the no-cleanup policy. -/
def sidecarCleanup (noCleanup : Bool) (id : String) : List Action :=
  if noCleanup then [.logNoCleanup id] else [.deleteContainer id]

/-- The `ContainerCreateInput` built for one sidecar (lines 355–364):
image, command override, environment, resources, and the
network-namespace attachment `container:<connectToContainer>`. As for
the main container, `int64(additionalContainer.Memory * mebi)`
multiplies in `uint32` first. -/
def additionalContainerCreateInput (ac : AdditionalContainer)
    (connectToContainer : String) : ContainerCreateInput :=
  { ContainerCreateInput.empty with
      image := ac.image
      command := ac.command
      env := ac.environment
      nanoCPUs := truncToInt (ac.cpu * (nano : ℚ))
      memory := ((ac.memory * mebi) % 2 ^ 32 : Nat)
      network := "container:" ++ connectToContainer }

/-- Model of `runAdditionalContainer(ctx, logger, additionalContainer, backend,
connectToContainer, containerOptions)`, as result plus ordered action
trace. Every error it returns is wrapped as
`ErrAdditionalContainerFailed`; the exit status delivered on the wait
channel is logged, never escalated. The deferred cleanup is registered
after a successful create and therefore runs on every later exit
path. -/
def runAdditionalContainer (oracle : SidecarOracle)
    (ac : AdditionalContainer) (connectToContainer : String) (noCleanup : Bool) :
    Option GoError × List Action :=
  let (pullErr, pullActs) := pullHelper ac.image oracle.shouldPullImage oracle.imagePull
  match pullErr with
  | some e => (some e, pullActs)
  | none =>
    let input := additionalContainerCreateInput ac connectToContainer
    match oracle.containerCreate with
    | .error msg =>
        (some (.additionalContainerFailed msg), pullActs ++ [.createContainer input])
    | .ok id =>
      let afterCreate : Option GoError × List Action :=
        let warns := portWarnActions ac.name ac.ports
        match oracle.containerStart with
        | .error msg =>
            (some (.additionalContainerFailed msg), warns ++ [.startContainer id])
        | .ok _ =>
          match oracle.waitEvent with
          | .containerExit _ _ =>
              (none, warns ++ [.startContainer id, .waitContainer id])
          | .waitError msg =>
              (some (.additionalContainerFailed msg),
               warns ++ [.startContainer id, .waitContainer id])
      (afterCreate.1,
       pullActs ++ [.createContainer input] ++ afterCreate.2
         ++ sidecarCleanup noCleanup id)

/-- The first event the main orchestrator's `select` (lines 330–337)
sees: a terminal wait result for the main container on `waitChan`, an
error on the backend's `errChan`, or a sidecar error on
`additionalContainersErrChan`. -/
inductive MainWaitEvent where
  | containerExit (statusCode : Int) (errMsg : Option String)
  | waitError (msg : String)
  | additionalContainerError (e : GoError)
  deriving DecidableEq, Repr

/-- Fixes the outcome of every backend call `RunContainerizedAgent`
itself performs, and the first event its wait `select` sees. -/
structure MainOracle where
  systemInfo : Except String SystemInfo
  shouldPullImage : Bool
  imagePull : Except String Unit
  containerCreate : Except String String
  containerStart : Except String Unit
  containerLogs : Except String Unit
  waitEvent : MainWaitEvent
  deriving Repr

/-- The deferred teardown of `RunContainerizedAgent` (lines 268–289),
registered immediately after the main container is created, in exactly
this order: cancel the additional-containers context and wait for all
sidecar goroutines; delete the main container (or only log its
identifier under the no-cleanup policy); cancel the log-reader context
and wait for the log-reading goroutine. -/
def teardownActions (noCleanup : Bool) (id : String) : List Action :=
  [.cancelAdditionalContainers, .waitAdditionalContainersDone]
    ++ (if noCleanup then [.logNoCleanup id] else [.deleteContainer id])
    ++ [.cancelLogReader, .waitLogReaderDone]

/-- Result of a `RunContainerizedAgent` run: the returned error (`none`
for a nil return), the ordered trace of the function's own actions, and
the caller-visible final state of the `*Params` argument. -/
structure RunResult where
  error : Option GoError
  actions : List Action
  finalParams : Params
  deriving Repr

/-- The part of `RunContainerizedAgent` that runs after the main
container has been created and the teardown has been deferred
(lines 291–339): spawn one goroutine per additional container, start
the main container, open its log stream, and block on the three-way
`select`. `params` is the already-clamped `params`. -/
def mainBody (oracle : MainOracle) (params : Params) (id : String) :
    Option GoError × List Action :=
  let spawns := params.additionalContainers.map
    (fun ac => Action.spawnAdditionalContainer ac.name)
  match oracle.containerStart with
  | .error msg => (some (.backend msg), spawns ++ [.startContainer id])
  | .ok _ =>
    match oracle.containerLogs with
    | .error msg => (some (.backend msg), spawns ++ [.startContainer id, .openLogs id])
    | .ok _ =>
      let pre := spawns ++ [.startContainer id, .openLogs id, .waitContainer id]
      match oracle.waitEvent with
      | .containerExit _ _ => (none, pre)
      | .waitError msg => (some (.backend msg), pre)
      | .additionalContainerError e => (some e, pre)

/-- Model of `RunContainerizedAgent(ctx, config, params)` (lines 136–340): query
capacity and clamp quotas in place, pull the main image, build the
create input, create the main container, run `mainBody`, and — on every
exit path past the create — run the deferred `teardownActions`. Errors
from `SystemInfo`, `ContainerCreate`, `ContainerStart`, `ContainerLogs`
and the wait error channel are returned raw (`GoError.backend`); the
pull failure arrives pre-wrapped from `pullHelper`; a sidecar error is
returned exactly as the sidecar goroutine sent it. -/
def RunContainerizedAgent (goos : String) (cloudBuildIP : String)
    (oracle : MainOracle) (config : RunConfig) (params : Params) : RunResult :=
  match oracle.systemInfo with
  | .error msg => ⟨some (.backend msg), [.querySystemInfo], params⟩
  | .ok info =>
    let clamped := clampParams info params
    let (pullErr, pullActs) :=
      pullHelper clamped.image oracle.shouldPullImage oracle.imagePull
    match pullErr with
    | some e => ⟨some e, .querySystemInfo :: pullActs, clamped⟩
    | none =>
      let input := mainContainerCreateInput goos cloudBuildIP config clamped
      match oracle.containerCreate with
      | .error msg =>
          ⟨some (.backend msg),
           .querySystemInfo :: pullActs ++ [.createContainer input], clamped⟩
      | .ok id =>
        let body := mainBody oracle clamped id
        ⟨body.1,
         .querySystemInfo :: pullActs ++ [.createContainer input]
           ++ body.2 ++ teardownActions config.noCleanup id,
         clamped⟩

/-- The protobuf `api.Platform` enum as the dispatcher sees it.
`unknownValue n` stands for an enum value outside the named set, whose
`String()` is its decimal number. -/
inductive ApiPlatform where
  | windows
  | darwin
  | linux
  | unknownValue (n : Nat)
  deriving DecidableEq, Repr

/-- Model of the protobuf `Platform.String()` method. -/
def ApiPlatform.string : ApiPlatform → String
  | .windows => "WINDOWS"
  | .darwin => "DARWIN"
  | .linux => "LINUX"
  | .unknownValue n => formatUint n

/-- ASCII lower-casing of one character, as Go's `strings.ToLower`
performs it on the ASCII-only inputs this code feeds it (`"WINDOWS"`,
`"DARWIN"`, `"LINUX"`, `runtime.GOOS` values). -/
def charToLower (c : Char) : Char :=
  if 65 ≤ c.toNat ∧ c.toNat ≤ 90 then Char.ofNat (c.toNat + 32) else c

/-- Model of Go's `strings.ToLower` on ASCII inputs. -/
def goToLower (s : String) : String :=
  String.mk (s.data.map charToLower)

/-- Modelled from the spec: the persistent-worker isolation payload.
The `persistentworker` package is not among the embedded sources; the
spec only says an isolation may require a particular host OS
("persistent-worker/docker-builder isolation whose required OS does not
equal the current host OS"), so the model distinguishes the `None`
isolation (used by the Docker Builder arm of the source) from one
carrying a required OS. -/
inductive Isolation where
  | none
  | osRequiring (requiredOS : String)
  deriving DecidableEq, Repr

/-- The result of `platform.NewUnix()` / `platform.NewWindows(osVersion)`
as selected by the container arm of the dispatcher. -/
inductive InstancePlatform where
  | unix
  | windows (osVersion : String)
  deriving DecidableEq, Repr

/-- The `abstract.Instance` variants the dispatcher can return. -/
inductive Instance where
  | container (image : String) (cpu : ℚ) (memory : Nat)
      (additionalContainers : List AdditionalContainer)
      (platform : InstancePlatform) (customWorkingDir : String)
  | pipe (cpu : ℚ) (memory : Nat) (stages : List String) (customWorkingDir : String)
  | prebuilt (image : String) (dockerfile : String)
      (arguments : List (String × String))
  | persistentWorker (isolation : Isolation)
  deriving DecidableEq, Repr

/-- Modelled from the spec: `PipeStagesFromCommands`, which derives the
pipe instance's "ordered sequence of execution stages ... from the
task's command list"; the function is not among the embedded sources
and the spec names no failure condition for it, so the model derives one
stage per command and always succeeds. It keeps the Go signature's
`(stages, error)` shape. -/
def PipeStagesFromCommands (commands : List String) : Except GoError (List String) :=
  .ok commands

/-- Modelled from the spec: `persistentworker.New(isolation, logger)`,
not among the embedded sources. Per the spec, dispatch "fails with
`ErrFailedToCreateInstance` when ... the descriptor references a
persistent-worker/docker-builder isolation whose required OS does not
equal the current host OS (checked case-insensitively)", and for every
known variant with satisfied platform constraints it returns a non-nil
instance and nil error. -/
def persistentworkerNew (isolation : Isolation) (goos : String) :
    Except GoError Instance :=
  match isolation with
  | .none => .ok (.persistentWorker isolation)
  | .osRequiring requiredOS =>
      if goToLower requiredOS = goToLower goos then
        .ok (.persistentWorker isolation)
      else
        .error (.failedToCreateInstance
          ("cannot use " ++ requiredOS ++ " isolation on this platform"))

/-- Model of `path.Join("gcr.io", repository)` followed by
`+ ":" + reference` (line 96), for already-clean repository strings. -/
def prebuiltImageName (repository reference : String) : String :=
  (if repository = "" then "gcr.io" else "gcr.io/" ++ repository) ++ ":" ++ reference

/-- The unmarshalled message inside the task's `any.Any` payload.
`unknown typeName` stands for any message type outside the variant set
the dispatcher switches on. -/
inductive InstanceMsg where
  | containerInstance (image : String) (cpu : ℚ) (memory : Nat)
      (additionalContainers : List AdditionalContainer)
      (platform : ApiPlatform) (osVersion : String)
  | pipeInstance (cpu : ℚ) (memory : Nat)
  | prebuiltImageInstance (repository reference dockerfile : String)
      (arguments : List (String × String))
  | persistentWorkerInstance (isolation : Isolation)
  | dockerBuilder (platform : ApiPlatform)
  | unknown (typeName : String)
  deriving DecidableEq, Repr

/-- The dispatcher's view of the `*any.Any` argument: a nil pointer, a
payload `ptypes.UnmarshalAny` rejects, or a successfully unmarshalled
message. -/
inductive ProtoAny where
  | nil
  | unparseable
  | msg (m : InstanceMsg)
  deriving DecidableEq, Repr

/-- Model of `NewFromProto(anyInstance, commands, customWorkingDir, logger)`
(lines 39–121), parameterised by `goos` (`runtime.GOOS`). A pure
dispatcher: it performs no backend call, so every failure happens
before any resource is provisioned. -/
def NewFromProto (goos : String) (anyInstance : ProtoAny)
    (commands : List String) (customWorkingDir : String) :
    Except GoError Instance :=
  match anyInstance with
  | .nil =>
      .error (.failedToCreateInstance
        "got nil instance which means it's probably not supported by the CLI")
  | .unparseable =>
      .error (.failedToCreateInstance "failed to unmarshal task's instance")
  | .msg m =>
    match m with
    | .containerInstance image cpu memory acs apiPlatform osVersion =>
      match apiPlatform with
      | .linux => .ok (.container image cpu memory acs .unix customWorkingDir)
      | .windows =>
          .ok (.container image cpu memory acs (.windows osVersion) customWorkingDir)
      | other =>
          .error (.failedToCreateInstance
            ("unsupported container instance platform: " ++ other.string))
    | .pipeInstance cpu memory =>
      match PipeStagesFromCommands commands with
      | .error e => .error e
      | .ok stages => .ok (.pipe cpu memory stages customWorkingDir)
    | .prebuiltImageInstance repository reference dockerfile arguments =>
        .ok (.prebuilt (prebuiltImageName repository reference) dockerfile arguments)
    | .persistentWorkerInstance isolation => persistentworkerNew isolation goos
    | .dockerBuilder apiPlatform =>
      let instanceOS := goToLower apiPlatform.string
      if goos ≠ instanceOS then
        .error (.failedToCreateInstance
          ("cannot run " ++ instanceOS ++ " Docker Builder instance on this platform"))
      else
        persistentworkerNew .none goos
    | .unknown typeName => .error (.unsupportedInstance typeName)

/-- A UTC wall-clock instant as Go's formatter reads it: calendar
fields, with `month ∈ [1,12]`, `day ∈ [1,31]`, `hour < 24`,
`minute < 60` for any value `time.Now().UTC()` can produce. -/
structure GoTime where
  year : Nat
  month : Nat
  day : Nat
  hour : Nat
  minute : Nat
  second : Nat
  deriving DecidableEq, Repr

/-- Go's `appendInt` as used by `time.Format`: the decimal digits,
zero-padded on the left to at least `width` digits (never
truncated). -/
def goPadInt (width n : Nat) : String :=
  let s := Nat.repr n
  String.mk (List.replicate (width - s.length) '0') ++ s

/-- Model of `t.Format("010215042006")`: the Go reference-time layout
`01` = zero-padded month, `02` = zero-padded day, `15` = zero-padded
24-hour, `04` = zero-padded minute, `2006` = year padded to at least
four digits. -/
def goFormat_mmddHHMMYYYY (t : GoTime) : String :=
  goPadInt 2 t.month ++ goPadInt 2 t.day ++ goPadInt 2 t.hour
    ++ goPadInt 2 t.minute ++ goPadInt 4 t.year

/-- Model of `TimeSyncCommand(t)` from the Parallels orchestrator:
`fmt.Sprintf("sudo date -u %s\n", t.Format("010215042006"))`. -/
def TimeSyncCommand (t : GoTime) : String :=
  "sudo date -u " ++ goFormat_mmddHHMMYYYY t ++ "\n"

/-- The agent invocation `command` slice built by `Parallels.Run`
(lines 114–124 of the Parallels source): the VM form double-quotes
exactly the two secret tokens. -/
def vmAgentCommand (remoteAgentPath : String) (config : RunConfig) : List String :=
  [remoteAgentPath,
   "-api-endpoint", config.directEndpoint,
   "-server-token", "\"" ++ config.serverSecret ++ "\"",
   "-client-token", "\"" ++ config.clientSecret ++ "\"",
   "-task-id", formatInt config.taskID]

/-- Everything `Parallels.Run` writes to the remote login shell's stdin:
the clock-sync command, then the space-joined agent invocation followed
by `exit`. -/
def vmShellInput (remoteAgentPath : String) (config : RunConfig) (now : GoTime) : String :=
  TimeSyncCommand now
    ++ (String.intercalate " " (vmAgentCommand remoteAgentPath config) ++ "\nexit\n")

/-- Number of host-port-unsupported warnings in an action trace. -/
def countHostPortWarnings (actions : List Action) : Nat :=
  actions.countP fun a =>
    match a with
    | .warnHostPort _ => true
    | _ => false

/-- Whether an additional container declares at least one port mapping
with a non-zero host port. -/
def hasNonZeroHostPort (ac : AdditionalContainer) : Bool :=
  ac.ports.any fun p => p.hostPort != 0

/-! ### Concrete example values for witnesses and counterexamples -/

/-- Example platform descriptor. -/
def exPlatform : Platform :=
  ⟨"/bin/cirrus-ci-agent", "/opt/cirrus-agent"⟩

/-- Example run configuration. -/
def exConfig : RunConfig :=
  { containerEndpoint := "http://ep", directEndpoint := "http://de",
    serverSecret := "srv", clientSecret := "cli", taskID := 42,
    projectDir := "/proj", dirtyMode := false, noCleanup := false }

/-- Example additional container with the given name and port
mappings. -/
def exAC (name : String) (ports : List PortMapping) : AdditionalContainer :=
  { name := name, image := "img-" ++ name, command := [], environment := [],
    cpu := 1, memory := 128, ports := ports }

/-- Example orchestration parameters with one sidecar. -/
def exParams : Params :=
  { image := "main-img", cpu := 4, memory := 2048,
    additionalContainers := [exAC "mysql" [⟨3306, 0⟩]],
    commandFrom := "", commandTo := "", platform := exPlatform,
    agentVolumeName := "av", workingVolumeName := "wv",
    workingDirectory := "/wd" }

/-- Example backend capacity report. -/
def exInfo : SystemInfo :=
  ⟨2, 1024 * mebi⟩

/-- A main-orchestrator oracle on which every backend call succeeds and
the wait `select` sees `event` first. -/
def exMainOracle (event : MainWaitEvent) : MainOracle :=
  { systemInfo := .ok exInfo, shouldPullImage := false, imagePull := .ok (),
    containerCreate := .ok "cont1", containerStart := .ok (),
    containerLogs := .ok (), waitEvent := event }

/-- A sidecar oracle on which every backend call succeeds and the wait
`select` sees `event` first. -/
def exSidecarOracle (event : SidecarWaitEvent) : SidecarOracle :=
  { shouldPullImage := false, imagePull := .ok (),
    containerCreate := .ok "side1", containerStart := .ok (),
    waitEvent := event }

/-! ## Theorems -/

/-- C5: `clampCPU(requested, available)` equals `min(requested,
available)`, and `clampMemory(requested, available)` equals `requested`
when `requested ≤ available` and `available` otherwise; consequently,
for all `requested ≥ 0` and `available ≥ 0`, each clamp's result is
`≤ requested` and `≤ available`, and equals `requested` whenever
`requested ≤ available`. Both functions are total Lean functions with no
error outcome, mirroring the error-free Go functions. -/
theorem clampCPU_clampMemory_spec :
    (∀ requested available : ℚ,
      clampCPU requested available = min requested available)
    ∧ (∀ requested available : Nat,
        clampMemory requested available =
          if requested ≤ available then requested else available)
    ∧ (∀ requested available : ℚ, 0 ≤ requested → 0 ≤ available →
        clampCPU requested available ≤ requested
        ∧ clampCPU requested available ≤ available
        ∧ (requested ≤ available → clampCPU requested available = requested))
    ∧ (∀ requested available : Nat,
        clampMemory requested available ≤ requested
        ∧ clampMemory requested available ≤ available
        ∧ (requested ≤ available → clampMemory requested available = requested)) := by
  refine ⟨fun r a => ?_, fun r a => ?_, fun r a _ _ => ?_, fun r a => ?_⟩
  · simp [clampCPU, mathMin, min_def]
  · simp only [clampMemory]
    split_ifs <;> omega
  · simp only [clampCPU, mathMin]
    split_ifs with h
    · exact ⟨le_refl r, h, fun _ => rfl⟩
    · exact ⟨(not_le.mp h).le, le_refl a, fun hra => absurd hra h⟩
  · simp only [clampMemory]
    refine ⟨?_, ?_, fun h => ?_⟩ <;> (split_ifs <;> omega)

/-- Witness for C5 at `requested = 3, available = 2` (CPU) and
`requested = 5, available = 7` (memory). -/
theorem clampCPU_clampMemory_spec_witness :
    (0 : ℚ) ≤ 3 ∧ (0 : ℚ) ≤ 2
    ∧ (clampCPU 3 2 ≤ 3 ∧ clampCPU 3 2 ≤ 2 ∧ ((3 : ℚ) ≤ 2 → clampCPU 3 2 = 3))
    ∧ (clampMemory 5 7 ≤ 5 ∧ clampMemory 5 7 ≤ 7 ∧ (5 ≤ 7 → clampMemory 5 7 = 5)) :=
  ⟨by norm_num, by norm_num,
   clampCPU_clampMemory_spec.2.2.1 3 2 (by norm_num) (by norm_num),
   clampCPU_clampMemory_spec.2.2.2 5 7⟩

/-- A zero-padded decimal rendering of `n < 10 ^ width` has exactly
`width` characters. -/
theorem goPadInt_length (width n : Nat) (hw : 0 < width) (hn : n < 10 ^ width) :
    (goPadInt width n).length = width := by
  have hle : (Nat.repr n).length ≤ width := Nat.repr_length n width hw hn
  simp only [goPadInt, String.length_append]
  have : (String.mk (List.replicate (width - (Nat.repr n).length) '0')).length
      = width - (Nat.repr n).length := by
    simp [String.length_mk]
  rw [this]
  omega

/-- C8: for every UTC time (calendar-valid fields, year of at most four
digits), `TimeSyncCommand t` is exactly `"sudo date -u "` followed by
the fixed-width 12-digit timestamp `mmddHHMMYYYY` — zero-padded
two-digit month, day, hour and minute, then the four-digit year, with
no separators — and a single trailing newline; in particular, for
`t = 2024-01-02T03:04:05Z` it returns `"sudo date -u 010203042024\n"`. -/
theorem timeSyncCommand_spec (t : GoTime)
    (hmonth : 1 ≤ t.month ∧ t.month ≤ 12) (hday : 1 ≤ t.day ∧ t.day ≤ 31)
    (hhour : t.hour < 24) (hminute : t.minute < 60) (hyear : t.year < 10000) :
    TimeSyncCommand t =
      "sudo date -u "
        ++ (goPadInt 2 t.month ++ goPadInt 2 t.day ++ goPadInt 2 t.hour
            ++ goPadInt 2 t.minute ++ goPadInt 4 t.year)
        ++ "\n"
    ∧ (goPadInt 2 t.month ++ goPadInt 2 t.day ++ goPadInt 2 t.hour
        ++ goPadInt 2 t.minute ++ goPadInt 4 t.year).length = 12
    ∧ TimeSyncCommand ⟨2024, 1, 2, 3, 4, 5⟩ = "sudo date -u 010203042024\n" := by
  refine ⟨rfl, ?_, by decide⟩
  have h2 : (10 : Nat) ^ 2 = 100 := by norm_num
  have h4 : (10 : Nat) ^ 4 = 10000 := by norm_num
  simp only [String.length_append]
  rw [goPadInt_length 2 t.month (by norm_num) (by omega),
    goPadInt_length 2 t.day (by norm_num) (by omega),
    goPadInt_length 2 t.hour (by norm_num) (by omega),
    goPadInt_length 2 t.minute (by norm_num) (by omega),
    goPadInt_length 4 t.year (by norm_num) (by omega)]

/-- Witness for C8 at `t = 2024-01-02T03:04:05Z`. -/
theorem timeSyncCommand_spec_witness :
    (1 ≤ 1 ∧ 1 ≤ 12) ∧ (1 ≤ 2 ∧ 2 ≤ 31) ∧ 3 < 24 ∧ 4 < 60 ∧ 2024 < 10000
    ∧ (TimeSyncCommand ⟨2024, 1, 2, 3, 4, 5⟩ =
        "sudo date -u "
          ++ (goPadInt 2 1 ++ goPadInt 2 2 ++ goPadInt 2 3
              ++ goPadInt 2 4 ++ goPadInt 4 2024)
          ++ "\n"
      ∧ (goPadInt 2 1 ++ goPadInt 2 2 ++ goPadInt 2 3
          ++ goPadInt 2 4 ++ goPadInt 4 2024).length = 12
      ∧ TimeSyncCommand ⟨2024, 1, 2, 3, 4, 5⟩ = "sudo date -u 010203042024\n") :=
  ⟨by norm_num, by norm_num, by norm_num, by norm_num, by norm_num,
   timeSyncCommand_spec ⟨2024, 1, 2, 3, 4, 5⟩ (by norm_num) (by norm_num)
     (by norm_num) (by norm_num) (by norm_num)⟩

/-- The staged struct updates of the create-input build never touch the
entrypoint: it is the vector built at lines 162–176. -/
theorem mainContainerCreateInput_entrypoint (goos cloudBuildIP : String)
    (config : RunConfig) (params : Params) :
    (mainContainerCreateInput goos cloudBuildIP config params).entrypoint =
      containerEntrypoint config params := by
  unfold mainContainerCreateInput
  split_ifs <;> rfl

/-- The staged struct updates of the create-input build leave the
environment exactly as line 246 does: empty, unless additional
containers are declared, in which case it holds the single
`CIRRUS_PORTS_WAIT_FOR` entry. -/
theorem mainContainerCreateInput_env (goos cloudBuildIP : String)
    (config : RunConfig) (params : Params) :
    (mainContainerCreateInput goos cloudBuildIP config params).env =
      if 0 < params.additionalContainers.length then
        [("CIRRUS_PORTS_WAIT_FOR",
          String.intercalate "," (additionalContainerPortStrings params.additionalContainers))]
      else [] := by
  unfold mainContainerCreateInput
  split_ifs <;> rfl

/-- C9: the agent invocation argument vector is built in exactly the
order `<path> -api-endpoint <url> -server-token <token> -client-token
<token> -task-id <int>`; the container orchestrator's entrypoint
additionally appends `-command-from <n> -command-to <n>` after the task
id, and the VM orchestrator's command wraps exactly the two secret
token values (and nothing else) in double quotes. -/
theorem agentInvocation_vector_spec (goos cloudBuildIP : String)
    (config : RunConfig) (params : Params) (remoteAgentPath : String) :
    (mainContainerCreateInput goos cloudBuildIP config params).entrypoint =
      ([params.platform.containerAgentPath,
        "-api-endpoint", config.containerEndpoint,
        "-server-token", config.serverSecret,
        "-client-token", config.clientSecret,
        "-task-id", formatInt config.taskID]
       ++ ["-command-from", params.commandFrom, "-command-to", params.commandTo])
    ∧ vmAgentCommand remoteAgentPath config =
      [remoteAgentPath,
       "-api-endpoint", config.directEndpoint,
       "-server-token", "\"" ++ config.serverSecret ++ "\"",
       "-client-token", "\"" ++ config.clientSecret ++ "\"",
       "-task-id", formatInt config.taskID] :=
  ⟨by rw [mainContainerCreateInput_entrypoint]; rfl, rfl⟩

/-- C7: `RunContainerizedAgent` sets `CIRRUS_PORTS_WAIT_FOR` in the main
container's environment iff at least one additional container is
declared, its value is the comma-joined list of the container-side
ports of all additional containers in declaration order, and additional
containers exposing ports `{80, 443}` and `{8080}` yield
`"80,443,8080"`. -/
theorem cirrusPortsWaitFor_spec (goos cloudBuildIP : String)
    (config : RunConfig) (params : Params) :
    (params.additionalContainers = [] →
      ((mainContainerCreateInput goos cloudBuildIP config params).env.lookup
        "CIRRUS_PORTS_WAIT_FOR") = none)
    ∧ (params.additionalContainers ≠ [] →
      ((mainContainerCreateInput goos cloudBuildIP config params).env.lookup
        "CIRRUS_PORTS_WAIT_FOR") =
        some (String.intercalate ","
          (params.additionalContainers.flatMap fun ac =>
            ac.ports.map fun p => formatUint p.containerPort)))
    ∧ ((mainContainerCreateInput goos cloudBuildIP config
          { image := "main", cpu := 1, memory := 1,
            additionalContainers :=
              [{ name := "a", image := "ia", command := [], environment := [],
                 cpu := 1, memory := 1, ports := [⟨80, 0⟩, ⟨443, 0⟩] },
               { name := "b", image := "ib", command := [], environment := [],
                 cpu := 1, memory := 1, ports := [⟨8080, 0⟩] }],
            commandFrom := "", commandTo := "", platform := ⟨"p", "d"⟩,
            agentVolumeName := "av", workingVolumeName := "wv",
            workingDirectory := "wd" }).env.lookup "CIRRUS_PORTS_WAIT_FOR")
        = some "80,443,8080" := by
  refine ⟨fun h => ?_, fun h => ?_, ?_⟩
  · rw [mainContainerCreateInput_env]
    simp [h]
  · rw [mainContainerCreateInput_env]
    have hlen : 0 < params.additionalContainers.length := by
      cases hx : params.additionalContainers with
      | nil => exact absurd hx h
      | cons a l => simp
    simp [hlen, additionalContainerPortStrings, List.lookup]
  · rw [mainContainerCreateInput_env]
    decide

/-- Witness for C7 at an empty and a non-empty additional-container
list (concrete config and platform values). -/
theorem cirrusPortsWaitFor_spec_witness :
    (let params0 : Params :=
      { image := "main", cpu := 1, memory := 1, additionalContainers := [],
        commandFrom := "", commandTo := "", platform := ⟨"p", "d"⟩,
        agentVolumeName := "av", workingVolumeName := "wv", workingDirectory := "wd" }
     params0.additionalContainers = []
      ∧ ((mainContainerCreateInput "linux" "" ⟨"ep", "de", "s", "c", 1, "pd", false, false⟩
            params0).env.lookup "CIRRUS_PORTS_WAIT_FOR") = none) :=
  ⟨rfl,
   (cirrusPortsWaitFor_spec "linux" "" ⟨"ep", "de", "s", "c", 1, "pd", false, false⟩
      _).1 rfl⟩

/-- C10: once the backend capacity query succeeds,
`RunContainerizedAgent` overwrites, in the caller-visible `params`,
exactly `CPU`, `Memory` and the `Cpu`/`Memory` of every additional
container with their clamped values — on every execution path,
including the ones that return an error — and the clamping step
modifies no other field of `Params` and no other field of any
additional container. -/
theorem params_mutation_spec (goos cloudBuildIP : String) (oracle : MainOracle)
    (config : RunConfig) (params : Params) (info : SystemInfo)
    (hsi : oracle.systemInfo = .ok info) :
    (RunContainerizedAgent goos cloudBuildIP oracle config params).finalParams
      = clampParams info params
    ∧ (clampParams info params).cpu = clampCPU params.cpu (availableCPUOf info)
    ∧ (clampParams info params).memory
        = clampMemory params.memory (availableMemoryOf info)
    ∧ (clampParams info params).additionalContainers
        = params.additionalContainers.map
            (clampAdditionalContainer (availableCPUOf info) (availableMemoryOf info))
    ∧ (clampParams info params).image = params.image
    ∧ (clampParams info params).commandFrom = params.commandFrom
    ∧ (clampParams info params).commandTo = params.commandTo
    ∧ (clampParams info params).platform = params.platform
    ∧ (clampParams info params).agentVolumeName = params.agentVolumeName
    ∧ (clampParams info params).workingVolumeName = params.workingVolumeName
    ∧ (clampParams info params).workingDirectory = params.workingDirectory
    ∧ (∀ ac : AdditionalContainer,
        (clampAdditionalContainer (availableCPUOf info) (availableMemoryOf info) ac).cpu
            = clampCPU ac.cpu (availableCPUOf info)
        ∧ (clampAdditionalContainer (availableCPUOf info) (availableMemoryOf info) ac).memory
            = clampMemory ac.memory (availableMemoryOf info)
        ∧ (clampAdditionalContainer (availableCPUOf info) (availableMemoryOf info) ac).name
            = ac.name
        ∧ (clampAdditionalContainer (availableCPUOf info) (availableMemoryOf info) ac).image
            = ac.image
        ∧ (clampAdditionalContainer (availableCPUOf info) (availableMemoryOf info) ac).command
            = ac.command
        ∧ (clampAdditionalContainer (availableCPUOf info) (availableMemoryOf info) ac).environment
            = ac.environment
        ∧ (clampAdditionalContainer (availableCPUOf info) (availableMemoryOf info) ac).ports
            = ac.ports) := by
  refine ⟨?_, rfl, rfl, rfl, rfl, rfl, rfl, rfl, rfl, rfl, rfl,
    fun ac => ⟨rfl, rfl, rfl, rfl, rfl, rfl, rfl⟩⟩
  simp only [RunContainerizedAgent, hsi]
  rcases hpull : pullHelper (clampParams info params).image oracle.shouldPullImage
      oracle.imagePull with ⟨perr, pacts⟩
  cases perr with
  | some e => simp [hpull]
  | none =>
    cases hcc : oracle.containerCreate with
    | error msg => simp [hpull, hcc]
    | ok id => simp [hpull, hcc]

/-- Witness for C10 at a concrete oracle, config and params. -/
theorem params_mutation_spec_witness :
    (exMainOracle (.containerExit 0 none)).systemInfo = .ok exInfo
    ∧ (RunContainerizedAgent "linux" "" (exMainOracle (.containerExit 0 none))
        exConfig exParams).finalParams = clampParams exInfo exParams :=
  ⟨rfl, (params_mutation_spec "linux" "" (exMainOracle (.containerExit 0 none))
    exConfig exParams exInfo rfl).1⟩

/-- Every error `pullHelper` returns is `ErrAdditionalContainerFailed`-wrapped
(line 448 of the source). -/
theorem pullHelper_error_wrapped (reference : String) (shouldPull : Bool)
    (pullResult : Except String Unit) (e : GoError)
    (h : (pullHelper reference shouldPull pullResult).1 = some e) :
    e.isAdditionalContainerFailed = true := by
  unfold pullHelper at h
  split_ifs at h
  cases pullResult with
  | ok _ => simp at h
  | error msg =>
    simp at h
    subst h
    rfl

/-- C1: when the backend's `ContainerWait` result channel delivers a
terminal wait result for the main container, `RunContainerizedAgent`
returns nil regardless of the exit code; it returns the error from the
backend wait error channel, or a sidecar's error, when one of those is
the first event instead — the first of the three events determines the
return value. `runAdditionalContainer` likewise returns nil when its
wait result arrives whatever the exit code, and every error it can
report is `ErrAdditionalContainerFailed`-wrapped. -/
theorem wait_phase_spec (goos cloudBuildIP : String) (oracle : MainOracle)
    (config : RunConfig) (params : Params) (info : SystemInfo) (id : String)
    (hsi : oracle.systemInfo = .ok info)
    (hpull : (pullHelper (clampParams info params).image oracle.shouldPullImage
        oracle.imagePull).1 = none)
    (hcc : oracle.containerCreate = .ok id)
    (hcs : oracle.containerStart = .ok ())
    (hcl : oracle.containerLogs = .ok ()) :
    (∀ code errMsg, oracle.waitEvent = .containerExit code errMsg →
      (RunContainerizedAgent goos cloudBuildIP oracle config params).error = none)
    ∧ (∀ msg, oracle.waitEvent = .waitError msg →
      (RunContainerizedAgent goos cloudBuildIP oracle config params).error
        = some (.backend msg))
    ∧ (∀ e, oracle.waitEvent = .additionalContainerError e →
      (RunContainerizedAgent goos cloudBuildIP oracle config params).error = some e)
    ∧ (∀ (so : SidecarOracle) (ac : AdditionalContainer) (connect : String)
        (noCleanup : Bool) (sid : String) (code : Int) (errMsg : Option String),
        (pullHelper ac.image so.shouldPullImage so.imagePull).1 = none →
        so.containerCreate = .ok sid →
        so.containerStart = .ok () →
        so.waitEvent = .containerExit code errMsg →
        (runAdditionalContainer so ac connect noCleanup).1 = none)
    ∧ (∀ (so : SidecarOracle) (ac : AdditionalContainer) (connect : String)
        (noCleanup : Bool) (e : GoError),
        (runAdditionalContainer so ac connect noCleanup).1 = some e →
        e.isAdditionalContainerFailed = true) := by
  have hmain : ∀ ev, oracle.waitEvent = ev →
      (RunContainerizedAgent goos cloudBuildIP oracle config params).error =
        (mainBody oracle (clampParams info params) id).1 := by
    intro ev _
    simp only [RunContainerizedAgent, hsi]
    rcases hp : pullHelper (clampParams info params).image oracle.shouldPullImage
        oracle.imagePull with ⟨perr, pacts⟩
    rw [hp] at hpull
    simp only at hpull
    subst hpull
    simp [hp, hcc]
  refine ⟨fun code errMsg hev => ?_, fun msg hev => ?_, fun e hev => ?_,
    fun so ac connect nc sid code errMsg hsp hscc hscs hsev => ?_,
    fun so ac connect nc e h => ?_⟩
  · rw [hmain _ hev]
    simp [mainBody, hcs, hcl, hev]
  · rw [hmain _ hev]
    simp [mainBody, hcs, hcl, hev]
  · rw [hmain _ hev]
    simp [mainBody, hcs, hcl, hev]
  · simp only [runAdditionalContainer]
    rcases hp : pullHelper ac.image so.shouldPullImage so.imagePull with ⟨perr, pacts⟩
    rw [hp] at hsp
    simp only at hsp
    subst hsp
    simp [hscc, hscs, hsev]
  · simp only [runAdditionalContainer] at h
    rcases hp : pullHelper ac.image so.shouldPullImage so.imagePull with ⟨perr, pacts⟩
    rw [hp] at h
    cases perr with
    | some pe =>
      simp at h
      subst h
      exact pullHelper_error_wrapped _ _ _ _ (by rw [hp])
    | none =>
      cases hscc : so.containerCreate with
      | error msg =>
        rw [hscc] at h
        simp at h
        subst h
        rfl
      | ok sid =>
        rw [hscc] at h
        cases hscs : so.containerStart with
        | error msg =>
          rw [hscs] at h
          simp at h
          subst h
          rfl
        | ok _ =>
          rw [hscs] at h
          cases hsev : so.waitEvent with
          | containerExit code errMsg =>
            rw [hsev] at h
            simp at h
          | waitError msg =>
            rw [hsev] at h
            simp at h
            subst h
            rfl

/-- Witness for C1: on an all-success oracle whose main container exits
with code 7, the orchestrator returns nil. -/
theorem wait_phase_spec_witness :
    (exMainOracle (.containerExit 7 none)).systemInfo = .ok exInfo
    ∧ (pullHelper (clampParams exInfo exParams).image
        (exMainOracle (.containerExit 7 none)).shouldPullImage
        (exMainOracle (.containerExit 7 none)).imagePull).1 = none
    ∧ (exMainOracle (.containerExit 7 none)).containerCreate = .ok "cont1"
    ∧ (exMainOracle (.containerExit 7 none)).containerStart = .ok ()
    ∧ (exMainOracle (.containerExit 7 none)).containerLogs = .ok ()
    ∧ (exMainOracle (.containerExit 7 none)).waitEvent = .containerExit 7 none
    ∧ (RunContainerizedAgent "linux" "" (exMainOracle (.containerExit 7 none))
        exConfig exParams).error = none :=
  ⟨rfl, rfl, rfl, rfl, rfl, rfl,
   (wait_phase_spec "linux" "" (exMainOracle (.containerExit 7 none))
      exConfig exParams exInfo "cont1" rfl rfl rfl rfl rfl).1 7 none rfl⟩

/-- C2: on every exit path of `RunContainerizedAgent` after the main
container is created, the function's trace ends with exactly the
teardown sequence: cancel the additional-containers context, wait for
all sidecar goroutines, delete the main container (or only log its
identifier under the no-cleanup policy), cancel the log-reader context,
wait for the log-reading goroutine — so sidecars stop before the main
container is deleted and the log reader stops last. -/
theorem teardown_order_spec (goos cloudBuildIP : String) (oracle : MainOracle)
    (config : RunConfig) (params : Params) (info : SystemInfo) (id : String)
    (hsi : oracle.systemInfo = .ok info)
    (hpull : (pullHelper (clampParams info params).image oracle.shouldPullImage
        oracle.imagePull).1 = none)
    (hcc : oracle.containerCreate = .ok id) :
    ∃ pre, (RunContainerizedAgent goos cloudBuildIP oracle config params).actions =
      pre ++ ([.cancelAdditionalContainers, .waitAdditionalContainersDone]
        ++ (if config.noCleanup then [.logNoCleanup id] else [.deleteContainer id])
        ++ [.cancelLogReader, .waitLogReaderDone]) := by
  simp only [RunContainerizedAgent, hsi]
  rcases hp : pullHelper (clampParams info params).image oracle.shouldPullImage
      oracle.imagePull with ⟨perr, pacts⟩
  rw [hp] at hpull
  simp only at hpull
  subst hpull
  simp only [hp, hcc]
  refine ⟨Action.querySystemInfo ::
    (pacts ++ [.createContainer (mainContainerCreateInput goos cloudBuildIP config
        (clampParams info params))]
      ++ (mainBody oracle (clampParams info params) id).2), ?_⟩
  simp [teardownActions, List.append_assoc]

/-- Witness for C2: on an all-success oracle, the trace ends with the
teardown sequence. -/
theorem teardown_order_spec_witness :
    (exMainOracle (.containerExit 0 none)).systemInfo = .ok exInfo
    ∧ (pullHelper (clampParams exInfo exParams).image
        (exMainOracle (.containerExit 0 none)).shouldPullImage
        (exMainOracle (.containerExit 0 none)).imagePull).1 = none
    ∧ (exMainOracle (.containerExit 0 none)).containerCreate = .ok "cont1"
    ∧ ∃ pre,
        (RunContainerizedAgent "linux" "" (exMainOracle (.containerExit 0 none))
          exConfig exParams).actions =
          pre ++ ([.cancelAdditionalContainers, .waitAdditionalContainersDone]
            ++ (if exConfig.noCleanup then [.logNoCleanup "cont1"]
                else [.deleteContainer "cont1"])
            ++ [.cancelLogReader, .waitLogReaderDone]) :=
  ⟨rfl, rfl, rfl,
   teardown_order_spec "linux" "" (exMainOracle (.containerExit 0 none))
     exConfig exParams exInfo "cont1" rfl rfl rfl⟩

/-- C3: `NewFromProto` is total over descriptors with a three-way
outcome — every known variant with satisfied platform constraints
yields `.ok` (a non-nil instance, nil error); an unknown descriptor
type yields an `ErrUnsupportedInstance`-wrapped error; a nil
descriptor, an unmarshal failure, or a container platform that is
neither Linux nor Windows yields an `ErrFailedToCreateInstance`-wrapped
error. The dispatcher is a pure function that performs no backend
action, so every failure occurs before any resource is provisioned. -/
theorem dispatch_totality_spec (goos : String) (commands : List String)
    (customWorkingDir : String) :
    (∀ image cpu memory acs osVersion,
      NewFromProto goos (.msg (.containerInstance image cpu memory acs .linux osVersion))
          commands customWorkingDir
        = .ok (.container image cpu memory acs .unix customWorkingDir))
    ∧ (∀ image cpu memory acs osVersion,
      NewFromProto goos (.msg (.containerInstance image cpu memory acs .windows osVersion))
          commands customWorkingDir
        = .ok (.container image cpu memory acs (.windows osVersion) customWorkingDir))
    ∧ (∀ cpu memory, ∃ inst,
      NewFromProto goos (.msg (.pipeInstance cpu memory)) commands customWorkingDir
        = .ok inst)
    ∧ (∀ repository reference dockerfile arguments, ∃ inst,
      NewFromProto goos
          (.msg (.prebuiltImageInstance repository reference dockerfile arguments))
          commands customWorkingDir = .ok inst)
    ∧ (∃ inst, NewFromProto goos (.msg (.persistentWorkerInstance .none))
        commands customWorkingDir = .ok inst)
    ∧ (∀ requiredOS : String, goToLower requiredOS = goToLower goos →
        ∃ inst, NewFromProto goos
          (.msg (.persistentWorkerInstance (.osRequiring requiredOS)))
          commands customWorkingDir = .ok inst)
    ∧ (∀ p : ApiPlatform, goos = goToLower p.string →
        ∃ inst, NewFromProto goos (.msg (.dockerBuilder p)) commands customWorkingDir
          = .ok inst)
    ∧ (∀ typeName, NewFromProto goos (.msg (.unknown typeName)) commands customWorkingDir
        = .error (.unsupportedInstance typeName))
    ∧ (∃ e, NewFromProto goos .nil commands customWorkingDir = .error e
        ∧ e.isFailedToCreateInstance = true)
    ∧ (∃ e, NewFromProto goos .unparseable commands customWorkingDir = .error e
        ∧ e.isFailedToCreateInstance = true)
    ∧ (∀ image cpu memory acs osVersion (p : ApiPlatform),
        p ≠ .linux → p ≠ .windows →
        ∃ e, NewFromProto goos
            (.msg (.containerInstance image cpu memory acs p osVersion))
            commands customWorkingDir = .error e
          ∧ e.isFailedToCreateInstance = true) := by
  refine ⟨fun image cpu memory acs osVersion => rfl,
    fun image cpu memory acs osVersion => rfl,
    fun cpu memory => ⟨_, rfl⟩,
    fun repository reference dockerfile arguments => ⟨_, rfl⟩,
    ⟨_, rfl⟩,
    fun requiredOS h => ?_,
    fun p h => ?_,
    fun typeName => rfl,
    ⟨_, rfl, rfl⟩,
    ⟨_, rfl, rfl⟩,
    fun image cpu memory acs osVersion p h1 h2 => ?_⟩
  · refine ⟨.persistentWorker (.osRequiring requiredOS), ?_⟩
    simp [NewFromProto, persistentworkerNew, h]
  · refine ⟨.persistentWorker .none, ?_⟩
    simp [NewFromProto, persistentworkerNew, h]
  · cases p with
    | linux => exact absurd rfl h1
    | windows => exact absurd rfl h2
    | darwin => exact ⟨_, rfl, rfl⟩
    | unknownValue n => exact ⟨_, rfl, rfl⟩

/-- Witness for C3 at the concrete satisfied/violated constraint
instances. -/
theorem dispatch_totality_spec_witness :
    (goToLower "darwin" = goToLower "darwin"
      ∧ ∃ inst, NewFromProto "darwin"
          (.msg (.persistentWorkerInstance (.osRequiring "darwin"))) [] ""
          = .ok inst)
    ∧ (ApiPlatform.darwin ≠ .linux ∧ ApiPlatform.darwin ≠ .windows
      ∧ ∃ e, NewFromProto "darwin"
            (.msg (.containerInstance "img" 1 1 [] .darwin "")) [] ""
            = .error e ∧ e.isFailedToCreateInstance = true) :=
  ⟨⟨rfl, (dispatch_totality_spec "darwin" [] "").2.2.2.2.2.1 "darwin" rfl⟩,
   by decide, by decide,
   (dispatch_totality_spec "darwin" [] "").2.2.2.2.2.2.2.2.2.2
     "img" 1 1 [] "" .darwin (by decide) (by decide)⟩

/-- C4: a docker-builder descriptor whose required OS differs from the
host OS under case-insensitive comparison fails dispatch with an
`ErrFailedToCreateInstance`-wrapped error, and likewise (per the
spec-modelled `persistentworker.New`) a persistent-worker isolation
with a mismatched required OS. `runtime.GOOS` values are lowercase,
hence the `goToLower goos = goos` hypothesis. The dispatcher performs no
backend action, so the failure is before any provisioning. -/
theorem os_mismatch_dispatch_spec (goos : String) (commands : List String)
    (customWorkingDir : String) (hlower : goToLower goos = goos) :
    (∀ p : ApiPlatform, goToLower p.string ≠ goToLower goos →
      ∃ e, NewFromProto goos (.msg (.dockerBuilder p)) commands customWorkingDir
          = .error e ∧ e.isFailedToCreateInstance = true)
    ∧ (∀ requiredOS : String, goToLower requiredOS ≠ goToLower goos →
      ∃ e, NewFromProto goos
          (.msg (.persistentWorkerInstance (.osRequiring requiredOS)))
          commands customWorkingDir = .error e
        ∧ e.isFailedToCreateInstance = true) := by
  constructor
  · intro p hp
    rw [hlower] at hp
    have hne : goos ≠ goToLower p.string := fun heq => hp heq.symm
    refine ⟨.failedToCreateInstance
      ("cannot run " ++ goToLower p.string ++ " Docker Builder instance on this platform"),
      ?_, rfl⟩
    simp [NewFromProto, hne]
  · intro requiredOS h
    refine ⟨.failedToCreateInstance
      ("cannot use " ++ requiredOS ++ " isolation on this platform"), ?_, rfl⟩
    simp [NewFromProto, persistentworkerNew, h]

/-- Witness for C4: a `windows` docker-builder descriptor and a
`windows`-requiring persistent-worker isolation both fail dispatch on a
`linux` host. -/
theorem os_mismatch_dispatch_spec_witness :
    goToLower "linux" = "linux"
    ∧ (goToLower ApiPlatform.windows.string ≠ goToLower "linux"
      ∧ ∃ e, NewFromProto "linux" (.msg (.dockerBuilder .windows)) [] ""
          = .error e ∧ e.isFailedToCreateInstance = true)
    ∧ (goToLower "windows" ≠ goToLower "linux"
      ∧ ∃ e, NewFromProto "linux"
          (.msg (.persistentWorkerInstance (.osRequiring "windows"))) [] ""
          = .error e ∧ e.isFailedToCreateInstance = true) :=
  ⟨by decide,
   ⟨by decide,
    (os_mismatch_dispatch_spec "linux" [] "" (by decide)).1 .windows (by decide)⟩,
   ⟨by decide,
    (os_mismatch_dispatch_spec "linux" [] "" (by decide)).2 "windows" (by decide)⟩⟩

/-- The warning loop over one container's port mappings emits exactly
one warning if some mapping has a non-zero host port (the `break`
stops after the first) and none otherwise. -/
theorem countHostPortWarnings_portWarnActions (name : String)
    (ports : List PortMapping) :
    countHostPortWarnings (portWarnActions name ports) =
      if ports.any (fun p => p.hostPort != 0) then 1 else 0 := by
  induction ports with
  | nil => rfl
  | cons p rest ih =>
    simp only [portWarnActions, List.any_cons]
    by_cases h : p.hostPort = 0
    · simp only [h]
      simpa using ih
    · simp [h, countHostPortWarnings]

/-- The pull helper emits no host-port warning. -/
theorem countHostPortWarnings_pullHelper (reference : String)
    (shouldPull : Bool) (pullResult : Except String Unit) :
    countHostPortWarnings (pullHelper reference shouldPull pullResult).2 = 0 := by
  unfold pullHelper
  split_ifs
  · cases pullResult <;> rfl
  · rfl

/-- One sidecar run whose image pull and container create succeed emits
exactly one host-port warning when the container declares a non-zero
host port, and none otherwise — independently of how the run ends. -/
theorem sidecar_warning_count (so : SidecarOracle) (ac : AdditionalContainer)
    (connect : String) (noCleanup : Bool) (sid : String)
    (hpull : (pullHelper ac.image so.shouldPullImage so.imagePull).1 = none)
    (hcc : so.containerCreate = .ok sid) :
    countHostPortWarnings (runAdditionalContainer so ac connect noCleanup).2 =
      if hasNonZeroHostPort ac then 1 else 0 := by
  simp only [runAdditionalContainer]
  rcases hp : pullHelper ac.image so.shouldPullImage so.imagePull with ⟨perr, pacts⟩
  rw [hp] at hpull
  simp only at hpull
  subst hpull
  have hpacts : countHostPortWarnings pacts = 0 := by
    have h2 : pacts = (pullHelper ac.image so.shouldPullImage so.imagePull).2 := by
      rw [hp]
    rw [h2]
    exact countHostPortWarnings_pullHelper _ _ _
  simp only [hcc]
  have happ : ∀ l1 l2 : List Action,
      countHostPortWarnings (l1 ++ l2) =
        countHostPortWarnings l1 + countHostPortWarnings l2 := by
    intro l1 l2
    exact List.countP_append _ _ _
  have hclean : countHostPortWarnings (sidecarCleanup noCleanup sid) = 0 := by
    unfold sidecarCleanup
    split_ifs <;> rfl
  have hwarn := countHostPortWarnings_portWarnActions ac.name ac.ports
  have hc1 : ∀ i, countHostPortWarnings [Action.createContainer i] = 0 := fun _ => rfl
  have hs1 : ∀ s, countHostPortWarnings [Action.startContainer s] = 0 := fun _ => rfl
  have hw1 : ∀ s, countHostPortWarnings
      [Action.startContainer s, Action.waitContainer s] = 0 := fun _ => rfl
  cases hcs : so.containerStart with
  | error msg =>
    simp only [countHostPortWarnings, List.countP_append, List.countP_cons] at hwarn ⊢
    simp [hwarn, hasNonZeroHostPort, countHostPortWarnings] at hpacts hclean ⊢
    rw [List.countP_eq_zero.mpr (fun a ha => by simp [hpacts a ha]), List.countP_eq_zero.mpr (fun a ha => by simp [hclean a ha])]
    simp
  | ok _ =>
    cases hev : so.waitEvent with
    | containerExit code errMsg =>
      simp only [countHostPortWarnings, List.countP_append, List.countP_cons] at hwarn ⊢
      simp [hwarn, hasNonZeroHostPort, countHostPortWarnings] at hpacts hclean ⊢
      rw [List.countP_eq_zero.mpr (fun a ha => by simp [hpacts a ha]), List.countP_eq_zero.mpr (fun a ha => by simp [hclean a ha])]
      simp
    | waitError msg =>
      simp only [countHostPortWarnings, List.countP_append, List.countP_cons] at hwarn ⊢
      simp [hwarn, hasNonZeroHostPort, countHostPortWarnings] at hpacts hclean ⊢
      rw [List.countP_eq_zero.mpr (fun a ha => by simp [hpacts a ha]), List.countP_eq_zero.mpr (fun a ha => by simp [hclean a ha])]
      simp

/-- C6 counterexample: two additional containers that each declare a
port mapping with a non-zero host port produce two host-port warnings —
one per container — not exactly one warning for the whole
additional-container set as the claim states. -/
theorem hostPort_warning_counterexample :
    hasNonZeroHostPort (exAC "redis" [⟨6379, 6379⟩]) = true
    ∧ hasNonZeroHostPort (exAC "postgres" [⟨5432, 5432⟩]) = true
    ∧ countHostPortWarnings
        (runAdditionalContainer (exSidecarOracle (.containerExit 0 none))
          (exAC "redis" [⟨6379, 6379⟩]) "cont1" false).2
      + countHostPortWarnings
        (runAdditionalContainer (exSidecarOracle (.containerExit 0 none))
          (exAC "postgres" [⟨5432, 5432⟩]) "cont1" false).2 = 2
    ∧ ¬(countHostPortWarnings
        (runAdditionalContainer (exSidecarOracle (.containerExit 0 none))
          (exAC "redis" [⟨6379, 6379⟩]) "cont1" false).2
      + countHostPortWarnings
        (runAdditionalContainer (exSidecarOracle (.containerExit 0 none))
          (exAC "postgres" [⟨5432, 5432⟩]) "cont1" false).2 = 1) := by
  have h1 := sidecar_warning_count (exSidecarOracle (.containerExit 0 none))
    (exAC "redis" [⟨6379, 6379⟩]) "cont1" false "side1" rfl rfl
  have h2 := sidecar_warning_count (exSidecarOracle (.containerExit 0 none))
    (exAC "postgres" [⟨5432, 5432⟩]) "cont1" false "side1" rfl rfl
  refine ⟨rfl, rfl, ?_, ?_⟩ <;> rw [h1, h2] <;> decide

/-- C6 (amended): orchestration emits exactly one host-port-unsupported
warning per additional container that declares at least one port
mapping with a non-zero host port — at most one per container, never
one per port mapping — so N such containers produce N warnings in
total, not one for the whole set. -/
theorem hostPort_warning_per_container_spec :
    (∀ (so : SidecarOracle) (ac : AdditionalContainer) (connect : String)
        (noCleanup : Bool) (sid : String),
      (pullHelper ac.image so.shouldPullImage so.imagePull).1 = none →
      so.containerCreate = .ok sid →
      countHostPortWarnings (runAdditionalContainer so ac connect noCleanup).2 =
        if hasNonZeroHostPort ac then 1 else 0)
    ∧ (∀ (runs : List (SidecarOracle × AdditionalContainer)) (connect : String)
        (noCleanup : Bool),
      (∀ r ∈ runs,
        (pullHelper r.2.image r.1.shouldPullImage r.1.imagePull).1 = none
        ∧ (∃ sid, r.1.containerCreate = .ok sid)
        ∧ hasNonZeroHostPort r.2 = true) →
      (runs.map fun r =>
          countHostPortWarnings (runAdditionalContainer r.1 r.2 connect noCleanup).2).sum
        = runs.length) := by
  refine ⟨fun so ac connect nc sid h1 h2 =>
    sidecar_warning_count so ac connect nc sid h1 h2, ?_⟩
  intro runs connect nc h
  induction runs with
  | nil => rfl
  | cons r rs ih =>
    rcases h r (by simp) with ⟨h1, ⟨sid, h2⟩, h3⟩
    simp only [List.map_cons, List.sum_cons, List.length_cons]
    rw [sidecar_warning_count r.1 r.2 connect nc sid h1 h2, h3,
      ih (fun x hx => h x (by simp [hx]))]
    simp [Nat.add_comm]

/-- Witness for the amended C6 at a concrete two-container set: two
warnings, one per container. -/
theorem hostPort_warning_per_container_spec_witness :
    (∀ r ∈ [((exSidecarOracle (.containerExit 0 none)), exAC "redis" [⟨6379, 6379⟩]),
            ((exSidecarOracle (.containerExit 0 none)), exAC "postgres" [⟨5432, 5432⟩])],
      (pullHelper r.2.image r.1.shouldPullImage r.1.imagePull).1 = none
      ∧ (∃ sid, r.1.containerCreate = .ok sid)
      ∧ hasNonZeroHostPort r.2 = true)
    ∧ ([((exSidecarOracle (.containerExit 0 none)), exAC "redis" [⟨6379, 6379⟩]),
        ((exSidecarOracle (.containerExit 0 none)), exAC "postgres" [⟨5432, 5432⟩])].map
          fun r => countHostPortWarnings
            (runAdditionalContainer r.1 r.2 "cont1" false).2).sum = 2 := by
  have hmem : ∀ r ∈ [((exSidecarOracle (.containerExit 0 none)), exAC "redis" [⟨6379, 6379⟩]),
      ((exSidecarOracle (.containerExit 0 none)), exAC "postgres" [⟨5432, 5432⟩])],
      (pullHelper r.2.image r.1.shouldPullImage r.1.imagePull).1 = none
      ∧ (∃ sid, r.1.containerCreate = .ok sid)
      ∧ hasNonZeroHostPort r.2 = true := by
    intro r hr
    simp only [List.mem_cons, List.not_mem_nil, or_false] at hr
    rcases hr with rfl | rfl
    · exact ⟨rfl, ⟨"side1", rfl⟩, rfl⟩
    · exact ⟨rfl, ⟨"side1", rfl⟩, rfl⟩
  exact ⟨hmem, hostPort_warning_per_container_spec.2 _ "cont1" false hmem⟩

end CirrusCLI
